import Mathlib

/-!
Verification of the prytaneum-user-management repository.

Part 1: shallow embedding of the Express-style error-handling middleware
`errorHandler` from `src/lib/errors/index.ts`.

The middleware receives an error value `err : Error & { status: number }`.
It branches on `err instanceof ClientError`.  A `ClientError` carries a
client-facing `message` and an `internalError` diagnostic string (and, being
a JavaScript object, may also carry a numeric `status` field).  Any other
error may carry a numeric `status` field, which at runtime may also be
absent (`undefined`), modelled here as `Option Nat`; JavaScript's
`err.status || 400` treats the number `0` as falsy, which the embedding
renders explicitly.
-/

/-- Errors as seen by the error handler: either a `ClientError` instance
(client-facing `message`, diagnostic `internalError`, possibly an attached
`status` field) or any other error (its `message`, and an attached numeric
`status` field that may be absent). -/
inductive AppError where
  | clientError (message : String) (internalError : String) (status : Option Nat)
  | other (message : String) (status : Option Nat)
  deriving DecidableEq, Repr

/-- The request object passed to the middleware.  `errorHandler` never reads
it; its fields model an arbitrary Express request. -/
structure Request where
  method : String
  path : String
  body : String
  deriving DecidableEq, Repr

/-- One call of `res.status(s).send()`, with the `res.statusMessage` in force
at that moment (`none` when never assigned) and the body passed to `send`
(`none`: `send()` with no argument, i.e. an empty body). -/
structure SendEvent where
  status : Nat
  statusMessage : Option String
  body : Option String
  deriving DecidableEq, Repr

/-- Shallow embedding of `errorHandler` (src/lib/errors/index.ts, lines
15-39).  The result is the trace of response sends paired with the lines
written to the diagnostic log (`Log.err`).  `NODE_ENV` is passed explicitly
as `nodeEnv` (`none` models an unset environment variable).

Source control flow: if `err instanceof ClientError`, set
`res.statusMessage = err.message`, log both messages when `NODE_ENV` is
`development` or `test`, and `res.status(400).send()`.  Otherwise
`res.status(err.status || 400).send()` with nothing logged. -/
def errorHandler (err : AppError) (_req : Request) (nodeEnv : Option String) :
    List SendEvent × List String :=
  match err with
  | .clientError message internalError _status =>
      let log :=
        if nodeEnv = some "development" ∨ nodeEnv = some "test" then
          ["Client Message: " ++ message, "Server Message: " ++ internalError]
        else []
      ([{ status := 400, statusMessage := some message, body := none }], log)
  | .other _message status =>
      let s : Nat :=
        match status with
        | some n => if n = 0 then 400 else n
        | none => 400
      ([{ status := s, statusMessage := none, body := none }], [])

/-!
Part 2: model of the authentication handlers exercised by the test suite
(`#login`, `#register`, `#authenticate`).  Their implementation is not part
of the visible sources — only their tests are — so, per the spec, they are
modelled from the spec's component design (§4.1) and external-interface
table (§6).  The token signing/verification service is an external
collaborator ("HMAC or asymmetric signing with configurable secret"), so
the keyed tag below is an abstract stand-in; what matters for the claims is
the token shape (tag, separator, payload) and that the tag is recomputed
over the presented payload at verification time.
-/

/-- Modelled from the spec: password hashing by the user store ("password
(hashed, not stored/compared in plaintext)").  An injective stand-in for the
external hash. -/
def hashPassword (p : String) : String :=
  "hashed:" ++ p

/-- A record of the persistent user store (spec §3: username, email, hashed
password; roles and ids play no part in the claims). -/
structure User where
  username : String
  email : String
  passwordHash : String
  deriving DecidableEq, Repr

/-- Dot-free escaping used inside the signature tag, so that the dot
separating the tag from the payload is unambiguous (JWT parts are dot-free
encodings). -/
def escapeDot (c : Char) : Char :=
  if c = '.' then 'D' else c

/-- Modelled from the spec: the keyed signature tag over a payload ("signed
credential", verified by recomputation).  Dot-free and content-dependent. -/
def mac (secret payload : List Char) : List Char :=
  'h' :: (secret ++ payload).map escapeDot

/-- Modelled from the spec: `jwt.sign` — a token is the keyed tag, a dot
separator, and the payload. -/
def sign (payload secret : List Char) : List Char :=
  mac secret payload ++ '.' :: payload

/-- Split a character sequence at its first dot: the part before it and the
part after it. -/
def splitAtDot : List Char → Option (List Char × List Char)
  | [] => none
  | c :: rest =>
      if c = '.' then some ([], rest)
      else
        match splitAtDot rest with
        | some (tag, body) => some (c :: tag, body)
        | none => none

/-- Modelled from the spec: token verification — parse off the tag,
recompute it over the presented payload, and accept only on an exact
match ("validity determined purely by signature ... at verification
time"). -/
def verify (token secret : List Char) : Option (List Char) :=
  match splitAtDot token with
  | some (tag, payload) => if mac secret payload = tag then some payload else none
  | none => none

/-- Modelled from the spec: the authenticate endpoint — a valid, untampered
signature yields 200, any signature mismatch yields 401 (expiry, an
external-clock concern, is outside the claims modelled here). -/
def authenticate (token secret : List Char) : Nat :=
  match verify token secret with
  | some _ => 200
  | none => 401

/-- The response of the login endpoint: an HTTP status and, on success, the
token carried in the body. -/
structure LoginResponse where
  status : Nat
  jwt : Option (List Char)
  deriving DecidableEq, Repr

/-- Modelled from the spec: the login handler — missing username or
password 400; unknown username or wrong password 401; valid credentials
issue a signed session token (200); a missing signing secret at sign time
500. -/
def login (store : List User) (secret : Option String)
    (username password : Option String) : LoginResponse :=
  match username, password with
  | some u, some p =>
      match store.find? (fun w => w.username == u) with
      | some w =>
          if w.passwordHash = hashPassword p then
            match secret with
            | some s => { status := 200, jwt := some (sign u.toList s.toList) }
            | none => { status := 500, jwt := none }
          else { status := 401, jwt := none }
      | none => { status := 401, jwt := none }
  | _, _ => { status := 400, jwt := none }

/-- The registration form (spec §4.1). -/
structure RegisterForm where
  username : String
  email : String
  password : String
  confirmPassword : String
  deriving DecidableEq, Repr

/-- Modelled from the spec: the register handler — password/confirmation
mismatch 400; duplicate username or email 400; otherwise create the user
record (200).  Returns the status and the resulting user store. -/
def register (store : List User) (form : RegisterForm) : Nat × List User :=
  if form.password ≠ form.confirmPassword then (400, store)
  else if store.any (fun w =>
      w.username == form.username || w.email == form.email) then
    (400, store)
  else
    (200, store ++ [{ username := form.username, email := form.email,
                      passwordHash := hashPassword form.password }])

/-- C1: for every `ClientError`, the handler sends exactly the response
`status 400`, status message equal to the error's client-facing message, and
an empty body; in particular the sent response is literally independent of
the `internalError` field, which therefore never reaches the client. -/
theorem errorHandler_clientError_response (m i : String) (st : Option Nat)
    (req : Request) (env : Option String) :
    (errorHandler (.clientError m i st) req env).fst =
      [{ status := 400, statusMessage := some m, body := none }]
    ∧ ∀ i' : String,
        (errorHandler (.clientError m i st) req env).fst =
        (errorHandler (.clientError m i' st) req env).fst := by
  constructor
  · rfl
  · intro i'
    rfl

/-- C6: on every input — `ClientError` or not, with or without an attached
status — the handler sends exactly one response. -/
theorem errorHandler_sends_exactly_once (err : AppError) (req : Request)
    (env : Option String) :
    (errorHandler err req env).fst.length = 1 := by
  cases err <;> rfl

/-- C9: for a non-`ClientError` error the default status 400 applies to the
falsy attached status `0` exactly as to an absent status field. -/
theorem errorHandler_falsy_status_default (m : String) (req : Request)
    (env : Option String) :
    (errorHandler (.other m (some 0)) req env).fst =
      [{ status := 400, statusMessage := none, body := none }]
    ∧ (errorHandler (.other m none) req env).fst =
      [{ status := 400, statusMessage := none, body := none }] := by
  exact ⟨rfl, rfl⟩

/-- C10: the whole observable result (send trace and log) is a function of
the error value and `NODE_ENV` alone: the request object does not influence
it. -/
theorem errorHandler_deterministic_in_error_and_env (err : AppError)
    (env : Option String) (req₁ req₂ : Request) :
    errorHandler err req₁ env = errorHandler err req₂ env := by
  cases err <;> rfl

/-- C2 counterexample: the error `other "boom" (some 0)` carries an attached
numeric status (`0`), yet the handler responds 400, not with the attached
status — refuting the claim that any present attached status is echoed. -/
theorem errorHandler_attached_zero_counterexample :
    (errorHandler (.other "boom" (some 0)) ⟨"POST", "/", ""⟩ none).fst =
      [{ status := 400, statusMessage := none, body := none }]
    ∧ (400 : Nat) ≠ 0 := by
  exact ⟨rfl, by decide⟩

/-- C2 amended: for a non-`ClientError` error the handler responds with the
attached status when it is present and nonzero, and with 400 when it is
absent or zero; in every case it sends no body (and no status message). -/
theorem errorHandler_other_status_amended (m : String) (s : Nat)
    (req : Request) (env : Option String) (h : s ≠ 0) :
    (errorHandler (.other m (some s)) req env).fst =
      [{ status := s, statusMessage := none, body := none }]
    ∧ (errorHandler (.other m none) req env).fst =
      [{ status := 400, statusMessage := none, body := none }]
    ∧ (errorHandler (.other m (some 0)) req env).fst =
      [{ status := 400, statusMessage := none, body := none }] := by
  refine ⟨?_, rfl, rfl⟩
  simp [errorHandler, h]

/-- Witness for the amended C2 at the concrete status 404. -/
theorem errorHandler_other_status_amended_witness :
    (errorHandler (.other "not found" (some 404)) ⟨"GET", "/x", ""⟩ none).fst =
      [{ status := 404, statusMessage := none, body := none }] :=
  (errorHandler_other_status_amended "not found" 404 ⟨"GET", "/x", ""⟩ none
    (by decide)).1

/-- C7: processing a `ClientError` logs exactly the client-facing and the
internal message if and only if `NODE_ENV` is `development` or `test`; in
any other environment (including unset) nothing is logged. -/
theorem errorHandler_clientError_logging (m i : String) (st : Option Nat)
    (req : Request) (env : Option String) :
    ((errorHandler (.clientError m i st) req env).snd =
        ["Client Message: " ++ m, "Server Message: " ++ i]
      ↔ (env = some "development" ∨ env = some "test"))
    ∧ (env ≠ some "development" → env ≠ some "test" →
        (errorHandler (.clientError m i st) req env).snd = []) := by
  constructor
  · constructor
    · intro hlog
      by_contra hc
      push_neg at hc
      simp [errorHandler, hc.1, hc.2] at hlog
    · intro henv
      simp [errorHandler, henv]
  · intro h1 h2
    simp [errorHandler, h1, h2]

/-- Witness for C7: in the `production` environment nothing is logged, and
in the `test` environment both lines are logged. -/
theorem errorHandler_clientError_logging_witness :
    (errorHandler (.clientError "bad input" "stack" none) ⟨"POST", "/", ""⟩
        (some "production")).snd = []
    ∧ (errorHandler (.clientError "bad input" "stack" none) ⟨"POST", "/", ""⟩
        (some "test")).snd =
      ["Client Message: " ++ "bad input", "Server Message: " ++ "stack"] := by
  constructor
  · exact (errorHandler_clientError_logging "bad input" "stack" none
      ⟨"POST", "/", ""⟩ (some "production")).2 (by decide) (by decide)
  · exact (errorHandler_clientError_logging "bad input" "stack" none
      ⟨"POST", "/", ""⟩ (some "test")).1.mpr (Or.inr rfl)

/-- C8: a `ClientError` is answered with 400 even when it carries an
attached nonzero status field, while the same attached status on a
non-`ClientError` error is echoed: the attached status is consulted only on
the non-`ClientError` branch. -/
theorem errorHandler_clientError_ignores_status (m i : String) (s : Nat)
    (req : Request) (env : Option String) (h : s ≠ 0) :
    ((errorHandler (.clientError m i (some s)) req env).fst.map
        SendEvent.status = [400])
    ∧ ((errorHandler (.other m (some s)) req env).fst.map
        SendEvent.status = [s]) := by
  constructor
  · rfl
  · simp [errorHandler, h]

/-- Witness for C8 at the concrete attached status 503. -/
theorem errorHandler_clientError_ignores_status_witness :
    ((errorHandler (.clientError "oops" "internal" (some 503))
        ⟨"POST", "/", ""⟩ none).fst.map SendEvent.status = [400])
    ∧ ((errorHandler (.other "oops" (some 503)) ⟨"POST", "/", ""⟩
        none).fst.map SendEvent.status = [503]) :=
  errorHandler_clientError_ignores_status "oops" "internal" 503
    ⟨"POST", "/", ""⟩ none (by decide)

/-- The escaping map never produces the separator character. -/
theorem escapeDot_ne_dot (a : Char) : escapeDot a ≠ '.' := by
  by_cases h : a = '.' <;> simp [escapeDot, h]

/-- The signature tag never contains the separator character. -/
theorem mac_not_mem_dot (secret payload : List Char) :
    '.' ∉ mac secret payload := by
  intro hmem
  rcases List.mem_cons.mp hmem with h | h
  · exact absurd h (by decide)
  · rcases List.mem_map.mp h with ⟨a, _, ha⟩
    exact escapeDot_ne_dot a ha

/-- Splitting at the first dot recovers a dot-free prefix exactly. -/
theorem splitAtDot_of_not_mem (l r : List Char) (h : '.' ∉ l) :
    splitAtDot (l ++ '.' :: r) = some (l, r) := by
  induction l with
  | nil => simp [splitAtDot]
  | cons a t ih =>
      have ha : a ≠ '.' := fun hc => h (hc ▸ List.mem_cons_self a t)
      have ht : '.' ∉ t := fun hm => h (List.mem_cons_of_mem a hm)
      simp [splitAtDot, ha, ih ht]

/-- Length of the signature tag. -/
theorem mac_length (secret payload : List Char) :
    (mac secret payload).length = secret.length + payload.length + 1 := by
  simp [mac]

/-- Sanity of the token model: an untampered token verifies to its
payload. -/
theorem verify_sign (payload secret : List Char) :
    verify (sign payload secret) secret = some payload := by
  have heq : sign payload secret = mac secret payload ++ '.' :: payload := rfl
  rw [verify, heq, splitAtDot_of_not_mem _ _ (mac_not_mem_dot secret payload)]
  simp

/-- Appending a character to a signed token changes the payload the
verifier parses, and the recomputed tag no longer matches. -/
theorem verify_append_char (payload secret : List Char) (c : Char) :
    verify (sign payload secret ++ [c]) secret = none := by
  have heq : sign payload secret ++ [c] =
      mac secret payload ++ '.' :: (payload ++ [c]) := by
    simp [sign]
  rw [verify, heq, splitAtDot_of_not_mem _ _ (mac_not_mem_dot secret payload)]
  have hne : mac secret (payload ++ [c]) ≠ mac secret payload := by
    intro h
    have hlen := congrArg List.length h
    rw [mac_length, mac_length] at hlen
    simp at hlen
  simp [hne]

/-- C4: for every payload and secret, signing and then appending any
character to the token makes the authenticate operation answer 401. -/
theorem authenticate_rejects_appended_char (payload secret : List Char)
    (c : Char) :
    authenticate (sign payload secret ++ [c]) secret = 401 := by
  rw [authenticate, verify_append_char]

/-- C3: the login status contract — missing username or password yields
400; a known username with a wrong password yields 401; correct credentials
with a configured secret yield 200 and a non-empty token in the body;
correct credentials with no secret configured at sign time yield 500. -/
theorem login_status_contract (store : List User) (secret : Option String)
    (username password : Option String) :
    ((username = none ∨ password = none) →
        (login store secret username password).status = 400)
    ∧ (∀ u p w, username = some u → password = some p →
        store.find? (fun x => x.username == u) = some w →
        w.passwordHash ≠ hashPassword p →
        (login store secret username password).status = 401)
    ∧ (∀ u p w s, username = some u → password = some p →
        store.find? (fun x => x.username == u) = some w →
        w.passwordHash = hashPassword p → secret = some s →
        (login store secret username password).status = 200 ∧
        ∃ t, (login store secret username password).jwt = some t ∧ t ≠ [])
    ∧ (∀ u p w, username = some u → password = some p →
        store.find? (fun x => x.username == u) = some w →
        w.passwordHash = hashPassword p → secret = none →
        (login store secret username password).status = 500) := by
  refine ⟨?_, ?_, ?_, ?_⟩
  · rintro (rfl | rfl)
    · rfl
    · cases username <;> rfl
  · rintro u p w rfl rfl hfind hpw
    simp [login, hfind, hpw]
  · rintro u p w s rfl rfl hfind hpw rfl
    refine ⟨by simp [login, hfind, hpw], sign u.toList s.toList, ?_, ?_⟩
    · simp [login, hfind, hpw]
    · simp [sign]
  · rintro u p w rfl rfl hfind hpw rfl
    simp [login, hfind, hpw]

/-- Witness for C3: a missing-fields request answers 400, and a correct
login against a one-user store answers 200. -/
theorem login_status_contract_witness :
    (login [] none none none).status = 400
    ∧ (login
        [{ username := "alice", email := "alice@mail.test",
           passwordHash := hashPassword "pw" }] (some "k")
        (some "alice") (some "pw")).status = 200 := by
  constructor
  · exact (login_status_contract [] none none none).1 (Or.inl rfl)
  · exact ((login_status_contract
      [{ username := "alice", email := "alice@mail.test",
         passwordHash := hashPassword "pw" }]
      (some "k") (some "alice") (some "pw")).2.2.1 "alice" "pw"
      { username := "alice", email := "alice@mail.test",
        passwordHash := hashPassword "pw" }
      "k" rfl rfl (by decide) rfl rfl).1

/-- C5: registering a form whose username and email both already belong to
a stored user answers 400 and returns the user store unchanged — no record
is created. -/
theorem register_duplicate_unchanged (store : List User) (form : RegisterForm)
    (h : ∃ w, w ∈ store ∧ w.username = form.username ∧ w.email = form.email) :
    register store form = (400, store) := by
  obtain ⟨w, hmem, hname, _hemail⟩ := h
  by_cases hpw : form.password = form.confirmPassword
  · have hany : store.any (fun x =>
        x.username == form.username || x.email == form.email) = true := by
      refine List.any_eq_true.mpr ⟨w, hmem, ?_⟩
      simp [hname]
    simp [register, hpw, hany]
  · simp [register, hpw]

/-- Witness for C5: re-registering the lone stored user answers 400 and
leaves the store as it was. -/
theorem register_duplicate_unchanged_witness :
    register
      [{ username := "bob", email := "bob@mail.test",
         passwordHash := hashPassword "x" }]
      { username := "bob", email := "bob@mail.test", password := "x",
        confirmPassword := "x" } =
    (400,
      [{ username := "bob", email := "bob@mail.test",
         passwordHash := hashPassword "x" }]) :=
  register_duplicate_unchanged _ _
    ⟨{ username := "bob", email := "bob@mail.test",
       passwordHash := hashPassword "x" },
      List.mem_singleton.mpr rfl, rfl, rfl⟩
